import Mathlib

/-!
Verification development for the mock-tool server (`trajectory_sandbox/mock_tools/server.py`).

The server is embedded shallowly:
* JSON documents become the inductive type `Json` (JSON numbers are modelled as
  integers — the fixtures and arguments exercised by the server use integer ids);
* the tool catalog becomes the literal list `TOOL_CATALOG`;
* the process-wide mutable state (current scenario, success log, all-requests log)
  becomes `ServerState`, threaded explicitly;
* the file system becomes an environment `Env` mapping `(scenario, filename)` to an
  optional parsed JSON document and absolute paths to optional file texts;
* Python exceptions become the `Except` monad with error type `PyErr`; an
  uncaught exception or a `fastapi.HTTPException` surfaces as `DispatchErr`.
-/

/-- JSON values as parsed by `json.loads`.  Numbers are modelled as integers. -/
inductive Json where
  | null : Json
  | bool : Bool → Json
  | num : Int → Json
  | str : String → Json
  | arr : List Json → Json
  | obj : List (String × Json) → Json

mutual

/-- Decidable equality on `Json` (the nested inductive defeats `deriving`). -/
def Json.decEq : (a b : Json) → Decidable (a = b)
  | .null, .null => isTrue rfl
  | .null, .bool _ => isFalse (fun h => Json.noConfusion h)
  | .null, .num _ => isFalse (fun h => Json.noConfusion h)
  | .null, .str _ => isFalse (fun h => Json.noConfusion h)
  | .null, .arr _ => isFalse (fun h => Json.noConfusion h)
  | .null, .obj _ => isFalse (fun h => Json.noConfusion h)
  | .bool _, .null => isFalse (fun h => Json.noConfusion h)
  | .bool a, .bool b =>
    if h : a = b then isTrue (by rw [h]) else isFalse (fun he => h (by injection he))
  | .bool _, .num _ => isFalse (fun h => Json.noConfusion h)
  | .bool _, .str _ => isFalse (fun h => Json.noConfusion h)
  | .bool _, .arr _ => isFalse (fun h => Json.noConfusion h)
  | .bool _, .obj _ => isFalse (fun h => Json.noConfusion h)
  | .num _, .null => isFalse (fun h => Json.noConfusion h)
  | .num _, .bool _ => isFalse (fun h => Json.noConfusion h)
  | .num a, .num b =>
    if h : a = b then isTrue (by rw [h]) else isFalse (fun he => h (by injection he))
  | .num _, .str _ => isFalse (fun h => Json.noConfusion h)
  | .num _, .arr _ => isFalse (fun h => Json.noConfusion h)
  | .num _, .obj _ => isFalse (fun h => Json.noConfusion h)
  | .str _, .null => isFalse (fun h => Json.noConfusion h)
  | .str _, .bool _ => isFalse (fun h => Json.noConfusion h)
  | .str _, .num _ => isFalse (fun h => Json.noConfusion h)
  | .str a, .str b =>
    if h : a = b then isTrue (by rw [h]) else isFalse (fun he => h (by injection he))
  | .str _, .arr _ => isFalse (fun h => Json.noConfusion h)
  | .str _, .obj _ => isFalse (fun h => Json.noConfusion h)
  | .arr _, .null => isFalse (fun h => Json.noConfusion h)
  | .arr _, .bool _ => isFalse (fun h => Json.noConfusion h)
  | .arr _, .num _ => isFalse (fun h => Json.noConfusion h)
  | .arr _, .str _ => isFalse (fun h => Json.noConfusion h)
  | .arr a, .arr b =>
    match Json.decEqList a b with
    | isTrue h => isTrue (by rw [h])
    | isFalse h => isFalse (fun he => h (by injection he))
  | .arr _, .obj _ => isFalse (fun h => Json.noConfusion h)
  | .obj _, .null => isFalse (fun h => Json.noConfusion h)
  | .obj _, .bool _ => isFalse (fun h => Json.noConfusion h)
  | .obj _, .num _ => isFalse (fun h => Json.noConfusion h)
  | .obj _, .str _ => isFalse (fun h => Json.noConfusion h)
  | .obj _, .arr _ => isFalse (fun h => Json.noConfusion h)
  | .obj a, .obj b =>
    match Json.decEqObj a b with
    | isTrue h => isTrue (by rw [h])
    | isFalse h => isFalse (fun he => h (by injection he))

/-- Decidable equality on lists of `Json`. -/
def Json.decEqList : (a b : List Json) → Decidable (a = b)
  | [], [] => isTrue rfl
  | [], _ :: _ => isFalse (fun h => List.noConfusion h)
  | _ :: _, [] => isFalse (fun h => List.noConfusion h)
  | x :: xs, y :: ys =>
    match Json.decEq x y, Json.decEqList xs ys with
    | isTrue h1, isTrue h2 => isTrue (by rw [h1, h2])
    | isFalse h1, _ => isFalse (fun he => h1 (by injection he))
    | _, isFalse h2 => isFalse (fun he => h2 (by injection he))

/-- Decidable equality on lists of key/value pairs. -/
def Json.decEqObj : (a b : List (String × Json)) → Decidable (a = b)
  | [], [] => isTrue rfl
  | [], _ :: _ => isFalse (fun h => List.noConfusion h)
  | _ :: _, [] => isFalse (fun h => List.noConfusion h)
  | (k, v) :: xs, (k2, v2) :: ys =>
    if h0 : k = k2 then
      match Json.decEq v v2, Json.decEqObj xs ys with
      | isTrue h1, isTrue h2 => isTrue (by rw [h0, h1, h2])
      | isFalse h1, _ =>
        isFalse (fun he => h1 (congrArg (fun l => (l.headD (k, v)).2) he))
      | _, isFalse h2 => isFalse (fun he => h2 (by injection he))
    else isFalse (fun he => h0 (congrArg (fun l => (l.headD (k, v)).1) he))

end

instance : DecidableEq Json := Json.decEq

/-- Decidable equality for `Except` results. -/
def exceptDecEq {e : Type} {a : Type} [DecidableEq e] [DecidableEq a] :
    (x y : Except e a) → Decidable (x = y)
  | Except.ok v, Except.ok w =>
    if h : v = w then isTrue (by rw [h]) else isFalse (fun he => h (by injection he))
  | Except.ok _, Except.error _ => isFalse (fun h => Except.noConfusion h)
  | Except.error _, Except.ok _ => isFalse (fun h => Except.noConfusion h)
  | Except.error v, Except.error w =>
    if h : v = w then isTrue (by rw [h]) else isFalse (fun he => h (by injection he))

instance {e : Type} {a : Type} [DecidableEq e] [DecidableEq a] : DecidableEq (Except e a) :=
  exceptDecEq

/-- A parsed JSON object (a Python `dict` with string keys, in insertion order). -/
abbrev JObj := List (String × Json)

/-- The character `{` (written via its code point to keep string literals plain). -/
def lbrace : Char := Char.ofNat 123

/-- The character `}`. -/
def rbrace : Char := Char.ofNat 125

mutual

/-- Python `repr` of a JSON-shaped value (`None`/`True`/`False`, quoted strings,
bracketed lists, braced dicts).  String escaping inside `repr` is not modelled:
the server compares and logs plain identifiers. -/
def pyRepr : Json → String
  | Json.null => "None"
  | Json.bool true => "True"
  | Json.bool false => "False"
  | Json.num n => toString n
  | Json.str s => "'" ++ s ++ "'"
  | Json.arr xs => "[" ++ pyReprList xs ++ "]"
  | Json.obj kvs => "\x7b" ++ pyReprObj kvs ++ "\x7d"

/-- `repr` of list elements, comma separated. -/
def pyReprList : List Json → String
  | [] => ""
  | [x] => pyRepr x
  | x :: xs => pyRepr x ++ ", " ++ pyReprList xs

/-- `repr` of dict items, comma separated. -/
def pyReprObj : List (String × Json) → String
  | [] => ""
  | [(k, v)] => "'" ++ k ++ "': " ++ pyRepr v
  | (k, v) :: kvs => "'" ++ k ++ "': " ++ pyRepr v ++ ", " ++ pyReprObj kvs

end

/-- The first `n` characters of a string (a Python slice `s[:n]`). -/
def strTake (s : String) (n : Nat) : String := String.mk (s.data.take n)

/-- Whether a string contains a character (Python `c in s`). -/
def strHas (s : String) (c : Char) : Bool := s.data.any (fun x => x = c)

/-- Python `str` of a JSON-shaped value: the string itself for strings,
`repr` otherwise. -/
def pyStr : Json → String
  | Json.str s => s
  | v => pyRepr v

/-- Python truthiness of a JSON-shaped value (`if results:` etc.). -/
def truthy : Json → Bool
  | Json.null => false
  | Json.bool b => b
  | Json.num n => n != 0
  | Json.str s => s ≠ ""
  | Json.arr xs => ¬ xs.isEmpty
  | Json.obj kvs => ¬ kvs.isEmpty

/-- `_flexget(data, *keys, default=...)`: the first value among `keys` that is
present and not `None`, else the default. -/
def flexget (data : JObj) (keys : List String) (default : Json) : Json :=
  match keys with
  | [] => default
  | k :: ks =>
    match data.lookup k with
    | some Json.null => flexget data ks default
    | some v => v
    | none => flexget data ks default

example : flexget [("a", Json.null), ("id", Json.num 7)] ["a", "id"] (Json.str "") =
    Json.num 7 := by decide

/-- A UTC wall-clock instant, at second resolution (`datetime.now(timezone.utc)`). -/
structure UTCTime where
  year : Nat
  month : Nat
  day : Nat
  hour : Nat
  minute : Nat
  second : Nat
deriving DecidableEq

/-- The decimal digit character for `n % 10`. -/
def digitChar10 (n : Nat) : Char := Char.ofNat (48 + n % 10)

/-- Zero-padded two-digit decimal rendering of a field (`strftime` `%m`, `%d`,
`%H`, `%M`, `%S` for in-range values). -/
def pad2 (n : Nat) : String := String.mk [digitChar10 (n / 10), digitChar10 n]

/-- Zero-padded four-digit decimal rendering of the year (`strftime` `%Y` for
years up to 9999, the range of `datetime`). -/
def pad4 (n : Nat) : String :=
  String.mk [digitChar10 (n / 1000), digitChar10 (n / 100), digitChar10 (n / 10), digitChar10 n]

/-- `datetime.now(timezone.utc).strftime("%Y%m%d%H%M%S")`. -/
def strftime14 (t : UTCTime) : String :=
  pad4 t.year ++ pad2 t.month ++ pad2 t.day ++ pad2 t.hour ++ pad2 t.minute ++ pad2 t.second

/-- `datetime.now(timezone.utc).isoformat()` at second resolution. -/
def isoOf (t : UTCTime) : String :=
  pad4 t.year ++ "-" ++ pad2 t.month ++ "-" ++ pad2 t.day ++ "T" ++ pad2 t.hour ++ ":" ++
    pad2 t.minute ++ ":" ++ pad2 t.second ++ "+00:00"

/-- The Python exceptions the server's code paths can raise. -/
inductive PyErr where
  | typeError : PyErr
  | attributeError : PyErr
  | keyError : PyErr
  | indexError : PyErr
  | valueError : PyErr
deriving DecidableEq

mutual

/-- `str.format` with keyword arguments only, over the template's character list.
Scans for replacement fields; `\x7b\x7b` and `\x7d\x7d` are literal-brace escapes;
an unterminated field or a lone `\x7d` is a `ValueError`.  Format specs and
conversions (`:`/`!` inside a field) are not modelled — the server's templates
use plain `\x7bname\x7d` fields only. -/
def pyFmt (kwargs : List (String × Json)) : List Char → Except PyErr (List Char)
  | [] => Except.ok []
  | c :: cs =>
    if c = lbrace then
      match cs with
      | [] => Except.error PyErr.valueError
      | c2 :: cs2 =>
        if c2 = lbrace then (pyFmt kwargs cs2).map (fun r => lbrace :: r)
        else pyFmtField kwargs [] (c2 :: cs2)
    else if c = rbrace then
      match cs with
      | [] => Except.error PyErr.valueError
      | c2 :: cs2 =>
        if c2 = rbrace then (pyFmt kwargs cs2).map (fun r => rbrace :: r)
        else Except.error PyErr.valueError
    else (pyFmt kwargs cs).map (fun r => c :: r)

/-- Reads a replacement-field name up to the closing brace, then substitutes:
an empty or numeric field is a positional reference (`IndexError`, since the
server passes no positional arguments); an unknown keyword is a `KeyError`. -/
def pyFmtField (kwargs : List (String × Json)) (acc : List Char) :
    List Char → Except PyErr (List Char)
  | [] => Except.error PyErr.valueError
  | c :: cs =>
    if c = rbrace then
      let nm := String.mk acc.reverse
      if nm = "" ∨ acc.all Char.isDigit then Except.error PyErr.indexError
      else
        match kwargs.lookup nm with
        | some v => (pyFmt kwargs cs).map (fun r => (pyStr v).data ++ r)
        | none => Except.error PyErr.keyError
    else pyFmtField kwargs (c :: acc) cs

end

/-- `val.format(ts=ts, **data)`: Python raises a `TypeError` while building the
call when `data` itself binds the key `ts` (duplicate keyword argument);
otherwise the keyword dictionary is `ts` followed by `data`. -/
def formatCall (val : String) (ts : String) (data : JObj) : Except PyErr String :=
  if (data.lookup "ts").isSome then Except.error PyErr.typeError
  else (pyFmt (("ts", Json.str ts) :: data) val.data).map String.mk

/-- `str.replace` specialised to the pattern `\x7bts\x7d`, replacing every
(non-overlapping, left-to-right) occurrence. -/
def replaceTsChars (ts : List Char) : List Char → List Char
  | c :: c2 :: c3 :: c4 :: rest =>
    if c = lbrace ∧ c2 = 't' ∧ c3 = 's' ∧ c4 = rbrace then ts ++ replaceTsChars ts rest
    else c :: replaceTsChars ts (c2 :: c3 :: c4 :: rest)
  | c :: cs => c :: replaceTsChars ts cs
  | [] => []

/-- `val.replace("\x7bts\x7d", ts)`. -/
def replaceTs (val : String) (ts : String) : String :=
  String.mk (replaceTsChars ts.data val.data)

example : replaceTs "evt_\x7bts\x7d" "20260101000000" = "evt_20260101000000" := by decide

example (kw : JObj) : pyFmt (("ts", Json.str "X") :: kw) "evt_\x7bts\x7d".data =
    Except.ok "evt_X".data := rfl

/-- One `TOOL_CATALOG` entry.  The source catalog is a dict per tool; optional
keys become `Option` fields (absent = `none`), and `echo_fields` keeps the
source's `.get("echo_fields", [])` default at the use site. -/
structure ToolDef where
  behavior : String
  fixture : Option String := none
  lookup_field : Option String := none
  param_field : Option String := none
  response_key : Option String := none
  transform : Option String := none
  default_response : Option JObj := none
  echo_fields : Option (List String) := none
  irreversible : Bool := false
  handler : Option String := none
deriving DecidableEq

/-- The server's tool catalog, entry for entry from `TOOL_CATALOG` in the source. -/
def TOOL_CATALOG : List (String × ToolDef) := [
  ("inbox.list",
   { behavior := "fixture_list", fixture := some "inbox.json",
     response_key := some "messages", transform := some "inbox_summary" }),
  ("email.read",
   { behavior := "fixture_lookup", fixture := some "inbox.json",
     lookup_field := some "id", param_field := some "message_id",
     response_key := some "email" }),
  ("email.draft",
   { behavior := "custom", handler := some "handle_email_draft" }),
  ("email.send",
   { behavior := "write_action",
     default_response := some [("status", Json.str "sent")],
     echo_fields := some ["draft_id"], irreversible := true }),
  ("email.archive",
   { behavior := "write_action",
     default_response := some [("status", Json.str "archived")],
     echo_fields := some ["message_id"] }),
  ("calendar.read",
   { behavior := "fixture_list", fixture := some "calendar.json",
     response_key := some "events" }),
  ("calendar.create",
   { behavior := "write_action",
     default_response := some [("status", Json.str "created"), ("event_id", Json.str "evt_\x7bts\x7d")],
     echo_fields := some ["title", "start", "end"], irreversible := true }),
  ("calendar.update",
   { behavior := "write_action",
     default_response := some [("status", Json.str "updated")],
     echo_fields := some ["event_id", "title", "start", "end"] }),
  ("calendar.delete",
   { behavior := "write_action",
     default_response := some [("status", Json.str "deleted")],
     echo_fields := some ["event_id"], irreversible := true }),
  ("slack.list_channels",
   { behavior := "fixture_list", fixture := some "slack_channels.json",
     response_key := some "channels" }),
  ("slack.read_messages",
   { behavior := "custom", handler := some "handle_slack_read_messages" }),
  ("slack.post_message",
   { behavior := "write_action",
     default_response := some [("status", Json.str "posted"), ("message_id", Json.str "slack_msg_\x7bts\x7d")],
     echo_fields := some ["channel", "text"], irreversible := true }),
  ("slack.send_dm",
   { behavior := "write_action",
     default_response := some [("status", Json.str "sent"), ("message_id", Json.str "dm_\x7bts\x7d")],
     echo_fields := some ["user", "text"], irreversible := true }),
  ("task.list",
   { behavior := "fixture_list", fixture := some "tasks.json",
     response_key := some "tasks" }),
  ("task.get",
   { behavior := "fixture_lookup", fixture := some "tasks.json",
     lookup_field := some "id", param_field := some "task_id",
     response_key := some "task" }),
  ("task.create",
   { behavior := "write_action",
     default_response := some [("status", Json.str "created"), ("task_id", Json.str "task_\x7bts\x7d")],
     echo_fields := some ["title", "description", "assignee", "priority"] }),
  ("task.update",
   { behavior := "write_action",
     default_response := some [("status", Json.str "updated")],
     echo_fields := some ["task_id", "status", "priority"] }),
  ("doc.list",
   { behavior := "fixture_list", fixture := some "documents.json",
     response_key := some "documents" }),
  ("doc.read",
   { behavior := "fixture_lookup", fixture := some "documents.json",
     lookup_field := some "id", param_field := some "document_id",
     response_key := some "document" }),
  ("doc.create",
   { behavior := "write_action",
     default_response := some [("status", Json.str "created"), ("document_id", Json.str "doc_\x7bts\x7d")],
     echo_fields := some ["title", "content"] }),
  ("contacts.list",
   { behavior := "fixture_list", fixture := some "contacts.json",
     response_key := some "contacts" }),
  ("contacts.get",
   { behavior := "fixture_lookup", fixture := some "contacts.json",
     lookup_field := some "id", param_field := some "contact_id",
     response_key := some "contact" }),
  ("memory.read",
   { behavior := "custom", handler := some "handle_memory_read" }),
  ("memory.write",
   { behavior := "write_action",
     default_response := some [("success", Json.bool true)],
     echo_fields := some ["path"] }),
  ("search.web",
   { behavior := "custom", handler := some "handle_search_web" })]

/-- The server's external world: the fixtures directory root (`FIXTURES_PATH`),
the parsed JSON fixture files (`load_fixture`'s view: `(scenario, filename)` to
the parsed document, `none` when the file is absent or unreadable as a fixture),
the raw text files reachable on the host keyed by normalised absolute path
(`handle_memory_read`'s view), and the wall clock. -/
structure Env where
  fixturesPath : String
  fixtures : String → String → Option Json
  textFiles : String → Option String
  now : UTCTime

/-- `load_fixture(scenario, filename)`: the parsed fixture document, or `None`
when the file does not exist. -/
def load_fixture (env : Env) (scenario : String) (filename : String) : Option Json :=
  env.fixtures scenario filename

/-- One success-log entry (`log_tool_call`). -/
structure LogEntry where
  ts : String
  tool : String
  args : JObj
  result_summary : String
deriving DecidableEq

/-- One all-requests-log entry (the logging middleware). -/
structure ReqEntry where
  ts : String
  tool : String
  request_body : Json
  status_code : Nat
  success : Bool
deriving DecidableEq

/-- The process-wide mutable state: `CURRENT_SCENARIO`, `tool_calls`,
`all_requests`. -/
structure ServerState where
  currentScenario : String
  toolCalls : List LogEntry
  allRequests : List ReqEntry
deriving DecidableEq

/-- The entry `log_tool_call(tool, args, result)` appends: ISO timestamp, tool
name, arguments, and the first 200 characters of `str(result)`. -/
def log_tool_call_entry (env : Env) (tool : String) (args : JObj) (result : JObj) : LogEntry :=
  { ts := isoOf env.now, tool := tool, args := args,
    result_summary := strTake (pyStr (Json.obj result)) 200 }

/-- A `POST /tools/{name}` request body as received on the wire: empty,
unparseable, or a JSON object.  (The server's tools are all invoked with JSON
objects; a parseable non-object body is outside this model.) -/
inductive Body where
  | empty : Body
  | malformed : String → Body
  | obj : JObj → Body
deriving DecidableEq

/-- `data = json.loads(body) if body else \x7b\x7d` with
`except (JSONDecodeError, ValueError): data = \x7b\x7d`. -/
def parseBody : Body → JObj
  | Body.empty => []
  | Body.malformed _ => []
  | Body.obj kvs => kvs

/-- `body_json` as the logging middleware records it: `None` for an empty body,
a `\x7b"_raw": ...\x7d` wrapper for an unparseable one, the parsed object otherwise. -/
def bodyJsonOf : Body → Json
  | Body.empty => Json.null
  | Body.malformed raw => Json.obj [("_raw", Json.str raw)]
  | Body.obj kvs => Json.obj kvs


/-- Whether a path string is absolute (begins with a slash). -/
def absPath (p : String) : Bool :=
  match p.data with
  | c :: _ => c = '/'
  | [] => false

/-- `Path(base) / rel` for POSIX paths: an absolute right operand replaces the
base entirely; an empty segment is dropped. -/
def joinPath (base : String) (rel : String) : String :=
  if absPath rel then rel
  else if rel = "" then base
  else base ++ "/" ++ rel

/-- Splits a character list into path segments at slashes. -/
def splitSlash (cur : List Char) : List Char → List String
  | [] => [String.mk cur.reverse]
  | c :: cs => if c = '/' then String.mk cur.reverse :: splitSlash [] cs else splitSlash (c :: cur) cs

/-- Resolves `.`, `..` and empty segments the way the operating system does when
a path is opened (a `..` at the root stays at the root). -/
def normSegs (acc : List String) : List String → List String
  | [] => acc.reverse
  | s :: rest =>
    if s = "" ∨ s = "." then normSegs acc rest
    else if s = ".." then normSegs (acc.drop 1) rest
    else normSegs (s :: acc) rest

/-- Joins path segments with slashes. -/
def joinSegs : List String → String
  | [] => ""
  | [s] => s
  | s :: rest => s ++ "/" ++ joinSegs rest

/-- Normalised form of an absolute path, as the OS resolves it on access. -/
def normalizePath (p : String) : String :=
  (if absPath p then "/" else "") ++ joinSegs (normSegs [] (splitSlash [] p.data))

example : normalizePath "/srv/fixtures/demo/memory/../../../../etc/shadow" = "/etc/shadow" := by
  decide

/-- `handle_email_draft`. -/
def handle_email_draft (data : JObj) : JObj :=
  let message_id := flexget data ["message_id", "messageId", "email_id", "emailId", "id"]
    (Json.str "unknown")
  let instructions := flexget data ["instructions", "body", "content", "text", "reply", "message"]
    (Json.str "No instructions provided")
  let draft_id := "draft_" ++ pyStr message_id
  let preview := "[Draft reply to " ++ pyStr message_id ++ "]: " ++
    strTake (pyStr instructions) 100 ++ "..."
  [("draft_id", Json.str draft_id), ("preview", Json.str preview)]

/-- `handle_memory_read`: joins the caller's path onto
`FIXTURES_PATH / CURRENT_SCENARIO / "memory"` with no sanitisation and reads the
file there; every exception inside the `try` is swallowed into
`\x7bcontent: None, exists: False\x7d` (including the `TypeError` from joining a
non-string path). -/
def handle_memory_read (env : Env) (scenario : String) (data : JObj) : JObj :=
  let req_path := flexget data ["path", "key"] (Json.str "")
  match req_path with
  | Json.str s =>
    let p := joinPath (joinPath (joinPath env.fixturesPath scenario) "memory") s
    match env.textFiles (normalizePath p) with
    | some content => [("content", Json.str content), ("exists", Json.bool true)]
    | none => [("content", Json.null), ("exists", Json.bool false)]
  | _ => [("content", Json.null), ("exists", Json.bool false)]

/-- `channel.lstrip("#")`: removes every leading `#`. -/
def lstripHash (s : String) : String := String.mk (s.data.dropWhile (fun c => c = '#'))

/-- The per-record test of the slack channel filter:
`m.get("channel", "").lstrip("#") == ch`.  A non-dict record or a non-string
channel field raises (`AttributeError`). -/
def msgMatches (ch : String) (m : Json) : Except PyErr Bool :=
  match m with
  | Json.obj kvs =>
    match (kvs.lookup "channel").getD (Json.str "") with
    | Json.str s => Except.ok (lstripHash s = ch)
    | _ => Except.error PyErr.attributeError
  | _ => Except.error PyErr.attributeError

/-- A Python list comprehension with a possibly-raising filter predicate
(evaluated left to right, eagerly). -/
def filterE (p : Json → Except PyErr Bool) : List Json → Except PyErr (List Json)
  | [] => Except.ok []
  | x :: xs => do
    let b ← p x
    let rest ← filterE p xs
    Except.ok (if b then x :: rest else rest)

/-- `handle_slack_read_messages`.  `load_fixture(...) or []` uses truthiness, so
a falsy fixture document degrades to the empty list; `if channel:` is also a
truthiness test, so an empty-string channel argument disables the filter. -/
def handle_slack_read_messages (env : Env) (scenario : String) (data : JObj) :
    Except PyErr JObj :=
  let channel := flexget data ["channel", "channel_id"] Json.null
  let f := load_fixture env scenario "slack_messages.json"
  let messages := match f with
    | none => Json.arr []
    | some v => if truthy v then v else Json.arr []
  if truthy channel then
    match channel with
    | Json.str c =>
      let ch := lstripHash c
      match messages with
      | Json.arr ms => (filterE (msgMatches ch) ms).map (fun ok => [("messages", Json.arr ok)])
      | _ => Except.error PyErr.typeError
    | _ => Except.error PyErr.attributeError
  else Except.ok [("messages", messages)]

/-- The synthesized placeholder search result for a query. -/
def searchPlaceholder (query : Json) : Json :=
  Json.obj [
    ("title", Json.str ("Search result for: " ++ pyStr query)),
    ("url", Json.str ("https://example.com/search?q=" ++ pyStr query)),
    ("snippet", Json.str ("Mock search result for '" ++ pyStr query ++ "'"))]

/-- `handle_search_web`.  `if results:` is a truthiness test.  `query in
results` on a mapping fixture hashes the query first: a string query succeeds
only on an equal key, a hashable non-string query (null, boolean, number) is
simply not found, and an unhashable query — a JSON array or object — raises an
uncaught `TypeError` before any membership result. -/
def handle_search_web (env : Env) (scenario : String) (data : JObj) :
    Except PyErr JObj :=
  let query := flexget data ["query", "q"] (Json.str "")
  let results := load_fixture env scenario "web_search_results.json"
  match results with
  | some r =>
    if truthy r then
      match r with
      | Json.obj kvs =>
        match query with
        | Json.str s =>
          match kvs.lookup s with
          | some v => Except.ok [("results", v)]
          | none => Except.ok [("results", Json.arr [searchPlaceholder query])]
        | Json.arr _ => Except.error PyErr.typeError
        | Json.obj _ => Except.error PyErr.typeError
        | _ => Except.ok [("results", Json.arr [searchPlaceholder query])]
      | Json.arr xs => Except.ok [("results", Json.arr xs)]
      | _ => Except.ok [("results", Json.arr [searchPlaceholder query])]
    else Except.ok [("results", Json.arr [searchPlaceholder query])]
  | none => Except.ok [("results", Json.arr [searchPlaceholder query])]

/-- `CUSTOM_HANDLERS.get(name)` applied to the input: `none` when the name is
not registered.  The cheap handlers are pure; the slack reader can raise. -/
def runHandler (hname : String) (env : Env) (scenario : String) (data : JObj) :
    Option (Except PyErr JObj) :=
  if hname = "handle_email_draft" then some (Except.ok (handle_email_draft data))
  else if hname = "handle_memory_read" then some (Except.ok (handle_memory_read env scenario data))
  else if hname = "handle_slack_read_messages" then
    some (handle_slack_read_messages env scenario data)
  else if hname = "handle_search_web" then some (handle_search_web env scenario data)
  else none

/-- Python dict assignment `o[k] = v`: updates in place when the key exists,
appends otherwise. -/
def objSet : JObj → String → Json → JObj
  | [], k, v => [(k, v)]
  | (k2, v2) :: rest, k, v =>
    if k2 = k then (k2, v) :: rest else (k2, v2) :: objSet rest k v

/-- The echo loop of `write_action`: for each field in `echo_fields` that is
present in the input (even with a `null` value), copy it into the response. -/
def applyEcho (r : JObj) (fields : List String) (data : JObj) : JObj :=
  fields.foldl
    (fun acc f =>
      match data.lookup f with
      | some v => objSet acc f v
      | none => acc)
    r

/-- Template resolution for one response value: only strings containing a `\x7b`
are formatted; a `KeyError`/`IndexError` from `format` falls back to
substituting only `\x7bts\x7d`; any other exception (the duplicate-`ts` `TypeError`,
a `ValueError` from a malformed template) propagates. -/
def resolveValE (ts : String) (data : JObj) (v : Json) : Except PyErr Json :=
  match v with
  | Json.str s =>
    if strHas s lbrace then
      match formatCall s ts data with
      | Except.ok r => Except.ok (Json.str r)
      | Except.error PyErr.keyError => Except.ok (Json.str (replaceTs s ts))
      | Except.error PyErr.indexError => Except.ok (Json.str (replaceTs s ts))
      | Except.error e => Except.error e
    else Except.ok (Json.str s)
  | other => Except.ok other

/-- Template resolution over the cloned default response, in insertion order. -/
def resolveTemplatesE (ts : String) (data : JObj) : JObj → Except PyErr JObj
  | [] => Except.ok []
  | (k, v) :: rest => do
    let v2 ← resolveValE ts data v
    let rest2 ← resolveTemplatesE ts data rest
    Except.ok ((k, v2) :: rest2)

/-- The `write_action` behavior: clone the default response (falling back to
`\x7bsuccess: True\x7d`), resolve templates with a fresh timestamp, then echo input
fields. -/
def writeAction (td : ToolDef) (ts : String) (data : JObj) : Except PyErr JObj := do
  let base := td.default_response.getD [("success", Json.bool true)]
  let templated ← resolveTemplatesE ts data base
  Except.ok (applyEcho templated (td.echo_fields.getD []) data)

/-- A possibly-raising map over fixture records (a Python list comprehension). -/
def mapE (f : Json → Except PyErr Json) : List Json → Except PyErr (List Json)
  | [] => Except.ok []
  | x :: xs => do
    let y ← f x
    let ys ← mapE f xs
    Except.ok (y :: ys)

/-- `next((x for x in xs if p x), None)`: lazily finds the first match, so a
record after the first match is never evaluated. -/
def findE (p : Json → Except PyErr Bool) : List Json → Except PyErr (Option Json)
  | [] => Except.ok none
  | x :: xs => do
    let b ← p x
    if b then Except.ok (some x) else findE p xs

/-- The `inbox_summary` transform applied to one fixture record. -/
def inboxSummary : Json → Except PyErr Json
  | Json.obj kvs =>
    Except.ok (Json.obj [
      ("id", (kvs.lookup "id").getD Json.null),
      ("sender", (kvs.lookup "sender").getD Json.null),
      ("subject", (kvs.lookup "subject").getD Json.null),
      ("snippet", Json.str (strTake (pyStr ((kvs.lookup "body").getD (Json.str ""))) 100)),
      ("received_ts", (kvs.lookup "received_ts").getD (Json.str "")),
      ("labels", (kvs.lookup "labels").getD (Json.arr [])),
      ("is_urgent", (kvs.lookup "is_urgent").getD (Json.bool false))])
  | _ => Except.error PyErr.attributeError

/-- The `fixture_list` behavior: absent fixture degrades to `[]`; the
`inbox_summary` transform maps each record (raising on a non-sequence fixture
or non-dict record); the result is wrapped under the response key. -/
def fixtureList (env : Env) (scenario : String) (td : ToolDef) : Except PyErr JObj :=
  let fd := (load_fixture env scenario (td.fixture.getD "")).getD (Json.arr [])
  if td.transform = some "inbox_summary" then
    match fd with
    | Json.arr msgs => (mapE inboxSummary msgs).map (fun out => [(td.response_key.getD "", Json.arr out)])
    | _ => Except.error PyErr.typeError
  else Except.ok [(td.response_key.getD "", fd)]

/-- The per-record test of `fixture_lookup`:
`str(x.get(lookup_field)) == str(lookup_val)` (raising on a non-dict record). -/
def lookupMatches (lookupField : String) (lookupVal : Json) (x : Json) : Except PyErr Bool :=
  match x with
  | Json.obj kvs => Except.ok (pyStr ((kvs.lookup lookupField).getD Json.null) = pyStr lookupVal)
  | _ => Except.error PyErr.attributeError

/-- The `fixture_lookup` behavior. -/
def fixtureLookup (env : Env) (scenario : String) (td : ToolDef) (data : JObj) :
    Except PyErr JObj :=
  match load_fixture env scenario (td.fixture.getD "") with
  | none => Except.ok [(td.response_key.getD "", Json.null), ("found", Json.bool false)]
  | some fd =>
    let lookupVal := flexget data [td.param_field.getD "", "id"] (Json.str "")
    match fd with
    | Json.arr xs =>
      (findE (lookupMatches (td.lookup_field.getD "") lookupVal) xs).map
        (fun item =>
          [(td.response_key.getD "", item.getD Json.null), ("found", Json.bool item.isSome)])
    | _ => Except.error PyErr.typeError

/-- Insert a string into a sorted list (ascending code-point order). -/
def insertSorted (x : String) : List String → List String
  | [] => [x]
  | y :: ys => if compare x y = Ordering.gt then y :: insertSorted x ys else x :: y :: ys

/-- Python `sorted` over strings. -/
def pySorted (l : List String) : List String := l.foldr insertSorted []

/-- The names the catalog registers, sorted: `sorted(TOOL_CATALOG.keys())`. -/
def sortedToolNames : List String := pySorted (TOOL_CATALOG.map Prod.fst)

/-- The detail string of the 404 for an unknown tool:
`f"Unknown tool: ... Known tools: ..."` (an f-string renders the sorted list by
its `repr`). -/
def unknownToolMsg (tool : String) : String :=
  "Unknown tool: " ++ tool ++ ". Known tools: " ++
    pyRepr (Json.arr (sortedToolNames.map Json.str))

/-- How a dispatch can fail: a structured `fastapi.HTTPException` (status code
and detail), or a Python exception escaping the endpoint. -/
inductive DispatchErr where
  | http : Nat → String → DispatchErr
  | uncaught : PyErr → DispatchErr
deriving DecidableEq

/-- The behavior-dispatch chain of `handle_tool` (everything after the catalog
lookup and body parse). -/
def runBehavior (env : Env) (scenario : String) (td : ToolDef) (data : JObj) :
    Except DispatchErr JObj :=
  if td.behavior = "fixture_list" then
    (fixtureList env scenario td).mapError DispatchErr.uncaught
  else if td.behavior = "fixture_lookup" then
    (fixtureLookup env scenario td data).mapError DispatchErr.uncaught
  else if td.behavior = "write_action" then
    (writeAction td (strftime14 env.now) data).mapError DispatchErr.uncaught
  else if td.behavior = "custom" then
    match td.handler with
    | none => Except.error (DispatchErr.uncaught PyErr.keyError)
    | some h =>
      match runHandler h env scenario data with
      | none => Except.error (DispatchErr.http 500 ("Missing handler: " ++ h))
      | some r => r.mapError DispatchErr.uncaught
  else Except.error (DispatchErr.http 500 ("Unknown behavior: " ++ td.behavior))

/-- `POST /tools/{tool_name}` (`handle_tool`): catalog lookup (404 with the full
tool listing on a miss), lenient body parse, behavior dispatch, and — only on
success — a success-log append.  Returns the response (or error) and the new
server state. -/
def handle_tool (env : Env) (st : ServerState) (tool_name : String) (body : Body) :
    Except DispatchErr JObj × ServerState :=
  match TOOL_CATALOG.lookup tool_name with
  | none => (Except.error (DispatchErr.http 404 (unknownToolMsg tool_name)), st)
  | some td =>
    let data := parseBody body
    match runBehavior env st.currentScenario td data with
    | Except.ok result =>
      (Except.ok result,
        { st with toolCalls := st.toolCalls ++ [log_tool_call_entry env tool_name data result] })
    | Except.error e => (Except.error e, st)

/-- The HTTP status of a finished dispatch: an `HTTPException`'s own code, 500
for an exception escaping to the outermost error handler, 200 otherwise. -/
def statusOf : Except DispatchErr JObj → Nat
  | Except.ok _ => 200
  | Except.error (DispatchErr.http c _) => c
  | Except.error (DispatchErr.uncaught _) => 500

/-- The all-requests-log entry the middleware appends after a response. -/
def reqEntryOf (env : Env) (tool : String) (body : Body) (res : Except DispatchErr JObj) :
    ReqEntry :=
  { ts := isoOf env.now, tool := tool, request_body := bodyJsonOf body,
    status_code := statusOf res,
    success := decide (200 ≤ statusOf res ∧ statusOf res < 300) }

/-- One whole `POST /tools/{tool}` request as processed by the middleware stack:
the endpoint runs inside `call_next`; an `HTTPException` is converted to a
response by the inner exception middleware, so the logging middleware records
it, but an uncaught Python exception propagates out of `call_next` and the code
after it — the all-requests append — never runs. -/
def processToolRequest (env : Env) (st : ServerState) (tool : String) (body : Body) :
    Except DispatchErr JObj × ServerState :=
  let r := handle_tool env st tool body
  match r.1 with
  | Except.error (DispatchErr.uncaught _) => r
  | _ =>
    (r.1, { r.2 with allRequests := r.2.allRequests ++ [reqEntryOf env tool body r.1] })

/-- `POST /set_scenario/{scenario}`: swaps the current scenario and clears both
in-memory logs, returning `\x7bscenario: <new>\x7d`. -/
def set_scenario (_st : ServerState) (scenario : String) : JObj × ServerState :=
  ([("scenario", Json.str scenario)],
    { currentScenario := scenario, toolCalls := [], allRequests := [] })

/-- Whether a fixture record is a JSON object (a Python dict). -/
def isObjRec : Json → Bool
  | Json.obj _ => true
  | _ => false

/-- Well-formedness of a lookup fixture as the spec's data model describes it:
either absent, or a JSON array of record objects. -/
def fixtureWF : Option Json → Bool
  | none => true
  | some (Json.arr recs) => recs.all isObjRec
  | some _ => false

/-- A record's field, `null` when missing (spec-side reading of `x.get(f)`). -/
def recField (r : Json) (f : String) : Json :=
  match r with
  | Json.obj kvs => (kvs.lookup f).getD Json.null
  | _ => Json.null

/-- Spec-side wording of the lookup value's `id` fallback: the generic `id`
key when present and non-null, else the empty string. -/
def lookupIdSpec (data : JObj) : Json :=
  match data.lookup "id" with
  | some v => if v = Json.null then Json.str "" else v
  | none => Json.str ""

/-- Spec-side wording of the lookup value: the first non-null among the entry's
primary parameter name and the generic `id` key, defaulting to the empty
string. -/
def lookupKeySpec (data : JObj) (pf : String) : Json :=
  match data.lookup pf with
  | some v => if v = Json.null then lookupIdSpec data else v
  | none => lookupIdSpec data

/-- Spec-side description of a `fixture_lookup` result: `found: false` with a
null payload when the fixture is absent or no record matches, otherwise the
first record (in file order) whose lookup field stringifies equal to the
stringified lookup value. -/
def lookupResultSpec (td : ToolDef) (f : Option Json) (data : JObj) : JObj :=
  match f with
  | none => [(td.response_key.getD "", Json.null), ("found", Json.bool false)]
  | some (Json.arr recs) =>
    let lv := lookupKeySpec data (td.param_field.getD "")
    match recs.find? (fun r => pyStr (recField r (td.lookup_field.getD "")) = pyStr lv) with
    | some r => [(td.response_key.getD "", r), ("found", Json.bool true)]
    | none => [(td.response_key.getD "", Json.null), ("found", Json.bool false)]
  | some _ => []

/-- Spec-side description of the web-search result (amended: a mapping fixture
matches only when it is non-empty and keyed by the exact string query; a
sequence fixture is returned unfiltered only when non-empty; an unhashable
query — a JSON array or object — against a non-empty mapping raises; every
other case gets the synthesized placeholder). -/
def searchSpec (q : Json) (f : Option Json) : Except PyErr JObj :=
  match f with
  | some (Json.obj kvs) =>
    if kvs.isEmpty then Except.ok [("results", Json.arr [searchPlaceholder q])]
    else
      match q with
      | Json.str s =>
        match kvs.lookup s with
        | some v => Except.ok [("results", v)]
        | none => Except.ok [("results", Json.arr [searchPlaceholder q])]
      | Json.arr _ => Except.error PyErr.typeError
      | Json.obj _ => Except.error PyErr.typeError
      | _ => Except.ok [("results", Json.arr [searchPlaceholder q])]
  | some (Json.arr xs) =>
    if xs.isEmpty then Except.ok [("results", Json.arr [searchPlaceholder q])]
    else Except.ok [("results", Json.arr xs)]
  | some _ => Except.ok [("results", Json.arr [searchPlaceholder q])]
  | none => Except.ok [("results", Json.arr [searchPlaceholder q])]

/-- Whether one response value is a string containing a placeholder opener
(so that `format` is invoked on it). -/
def braceKV (kv : String × Json) : Bool :=
  match kv.2 with
  | Json.str s => strHas s lbrace
  | _ => false

/-- Whether any value of the entry's default response triggers `format`. -/
def hasBraceTemplate (td : ToolDef) : Bool :=
  (td.default_response.getD [("success", Json.bool true)]).any braceKV

/-- The replacement-field characters `\x7bts\x7d`. -/
def tsSuffix : List Char := [lbrace, 't', 's', rbrace]

/-- Whether a template is a brace-free prefix followed by the single field
`\x7bts\x7d` — the only placeholder shape the catalog uses. -/
def tsTemplateOk : List Char → Bool
  | [] => false
  | c :: cs =>
    if c :: cs = tsSuffix then true
    else if c = lbrace ∨ c = rbrace then false
    else tsTemplateOk cs

/-- Whether every string value of a default response is either brace-free or a
well-formed `\x7bts\x7d` template. -/
def templatesOkB (base : JObj) : Bool :=
  base.all
    (fun kv =>
      match kv.2 with
      | Json.str s => if strHas s lbrace then tsTemplateOk s.data else true
      | _ => true)

/-- Prefix test over characters. -/
def leadsWith : List Char → List Char → Bool
  | [], _ => true
  | _ :: _, [] => false
  | a :: as, b :: bs => a = b && leadsWith as bs

/-- Contiguous-substring test over characters. -/
def hasRun (needle : List Char) : List Char → Bool
  | [] => leadsWith needle []
  | c :: cs => leadsWith needle (c :: cs) || hasRun needle cs

/-- A concrete world used to exercise the theorems below on closed inputs:
a `demo` scenario with an inbox fixture (numeric ids), an empty web-search
fixture, one slack message, and a host file outside the fixtures tree. -/
def envW : Env :=
  { fixturesPath := "/srv/fixtures",
    fixtures := fun sc f =>
      if sc = "demo" ∧ f = "inbox.json" then
        some (Json.arr [Json.obj [("id", Json.num 41)],
          Json.obj [("id", Json.num 42), ("subject", Json.str "Hi")]])
      else if sc = "demo" ∧ f = "web_search_results.json" then some (Json.arr [])
      else if sc = "demo" ∧ f = "slack_messages.json" then
        some (Json.arr [Json.obj [("channel", Json.str "general"), ("text", Json.str "hello")]])
      else none,
    textFiles := fun p => if p = "/etc/shadow" then some "secret" else none,
    now := { year := 2026, month := 10, day := 12, hour := 9, minute := 30, second := 5 } }

/-- The server state the concrete dispatches below start from. -/
def stW : ServerState := { currentScenario := "demo", toolCalls := [], allRequests := [] }

/-- A world whose web-search fixture is a non-empty mapping, for exercising the
dict-membership paths of the search handler. -/
def envM : Env :=
  { fixturesPath := "/srv/fixtures",
    fixtures := fun sc f =>
      if sc = "demo" ∧ f = "web_search_results.json" then
        some (Json.obj [("rust", Json.arr [Json.obj [("title", Json.str "Rust")]])])
      else none,
    textFiles := fun _ => none,
    now := { year := 2026, month := 10, day := 12, hour := 9, minute := 30, second := 5 } }

/-- The catalog entry of `email.read`. -/
def emailReadDef : ToolDef :=
  { behavior := "fixture_lookup", fixture := some "inbox.json",
    lookup_field := some "id", param_field := some "message_id", response_key := some "email" }

/-- The catalog entry of `calendar.read`. -/
def calendarReadDef : ToolDef :=
  { behavior := "fixture_list", fixture := some "calendar.json", response_key := some "events" }

/-- The catalog entry of `calendar.create`. -/
def calendarCreateDef : ToolDef :=
  { behavior := "write_action",
    default_response := some [("status", Json.str "created"),
      ("event_id", Json.str "evt_\x7bts\x7d")],
    echo_fields := some ["title", "start", "end"], irreversible := true }

/-- The catalog entry of `task.update`. -/
def taskUpdateDef : ToolDef :=
  { behavior := "write_action",
    default_response := some [("status", Json.str "updated")],
    echo_fields := some ["task_id", "status", "priority"] }

/-- The catalog entry of `slack.post_message`. -/
def slackPostDef : ToolDef :=
  { behavior := "write_action",
    default_response := some [("status", Json.str "posted"),
      ("message_id", Json.str "slack_msg_\x7bts\x7d")],
    echo_fields := some ["channel", "text"], irreversible := true }

/-- The catalog entry of `slack.read_messages`. -/
def slackReadDef : ToolDef :=
  { behavior := "custom", handler := some "handle_slack_read_messages" }

/-- The catalog entry of `search.web`. -/
def searchWebDef : ToolDef :=
  { behavior := "custom", handler := some "handle_search_web" }

/-- The catalog entry of `memory.read`. -/
def memoryReadDef : ToolDef :=
  { behavior := "custom", handler := some "handle_memory_read" }

/-- `flexget` over the two lookup keys agrees with the spec-side wording. -/
theorem flexget_eq_lookupKeySpec (data : JObj) (pf : String) :
    flexget data [pf, "id"] (Json.str "") = lookupKeySpec data pf := by
  simp only [flexget, lookupKeySpec, lookupIdSpec]
  cases hpf : data.lookup pf with
  | none =>
    cases hid : data.lookup "id" with
    | none => simp
    | some v => cases v <;> simp
  | some v =>
    cases v with
    | null =>
      cases hid : data.lookup "id" with
      | none => simp
      | some w => cases w <;> simp
    | bool b => simp
    | num n => simp
    | str s => simp
    | arr xs => simp
    | obj kvs => simp

/-- On a catalog hit, the response side of `handle_tool` is exactly the
behavior dispatch run in the current scenario on the parsed body. -/
theorem handle_tool_fst {name : String} {td : ToolDef} (env : Env) (st : ServerState)
    (body : Body) (h : TOOL_CATALOG.lookup name = some td) :
    (handle_tool env st name body).1 = runBehavior env st.currentScenario td (parseBody body) := by
  simp only [handle_tool, h]
  cases runBehavior env st.currentScenario td (parseBody body) <;> rfl

/-- On a catalog hit, a failing behavior leaves the state untouched and a
successful one appends exactly the success-log entry. -/
theorem handle_tool_snd {name : String} {td : ToolDef} (env : Env) (st : ServerState)
    (body : Body) (h : TOOL_CATALOG.lookup name = some td) :
    (handle_tool env st name body).2 =
      match runBehavior env st.currentScenario td (parseBody body) with
      | Except.ok result =>
        { st with toolCalls :=
            st.toolCalls ++ [log_tool_call_entry env name (parseBody body) result] }
      | Except.error _ => st := by
  simp only [handle_tool, h]
  cases runBehavior env st.currentScenario td (parseBody body) <;> rfl

/-- Over well-formed records, the lazy raising scan of `fixture_lookup` is the
pure first-match scan. -/
theorem findE_lookupMatches (lf : String) (lv : Json) (recs : List Json)
    (h : recs.all isObjRec) :
    findE (lookupMatches lf lv) recs =
      Except.ok (recs.find? (fun r => pyStr (recField r lf) = pyStr lv)) := by
  induction recs with
  | nil => rfl
  | cons r rest ih =>
    simp only [List.all_cons, Bool.and_eq_true] at h
    obtain ⟨hr, hrest⟩ := h
    cases r with
    | obj kvs =>
      simp only [findE, lookupMatches, List.find?, recField]
      by_cases hm : pyStr ((kvs.lookup lf).getD Json.null) = pyStr lv
      · simp [hm, Bind.bind, Except.bind]
      · simp [hm, ih hrest, Bind.bind, Except.bind, recField]
    | null => simp [isObjRec] at hr
    | bool b => simp [isObjRec] at hr
    | num n => simp [isObjRec] at hr
    | str s => simp [isObjRec] at hr
    | arr xs => simp [isObjRec] at hr

/-- `fixture_lookup` realises the spec-side description on any well-formed
fixture. -/
theorem fixtureLookup_spec (env : Env) (scenario : String) (td : ToolDef) (data : JObj)
    (hwf : fixtureWF (load_fixture env scenario (td.fixture.getD "")) = true) :
    fixtureLookup env scenario td data =
      Except.ok (lookupResultSpec td (load_fixture env scenario (td.fixture.getD "")) data) := by
  cases hf : load_fixture env scenario (td.fixture.getD "") with
  | none => simp [fixtureLookup, lookupResultSpec, hf]
  | some fd =>
    rw [hf] at hwf
    cases fd with
    | arr recs =>
      have hfind := findE_lookupMatches (td.lookup_field.getD "")
        (lookupKeySpec data (td.param_field.getD "")) recs (by simpa [fixtureWF] using hwf)
      simp only [fixtureLookup, lookupResultSpec, hf, flexget_eq_lookupKeySpec, hfind]
      cases hX : recs.find?
          (fun r => decide (pyStr (recField r (td.lookup_field.getD "")) =
            pyStr (lookupKeySpec data (td.param_field.getD "")))) with
      | none => simp [Except.map, hX]
      | some r => simp [Except.map, hX]
    | null => simp [fixtureWF] at hwf
    | bool b => simp [fixtureWF] at hwf
    | num n => simp [fixtureWF] at hwf
    | str s2 => simp [fixtureWF] at hwf
    | obj kvs => simp [fixtureWF] at hwf

/-- Assigning a key makes it present with the assigned value. -/
theorem objSet_lookup_self (o : JObj) (k : String) (v : Json) :
    (objSet o k v).lookup k = some v := by
  induction o with
  | nil => simp [objSet, List.lookup]
  | cons p rest ih =>
    obtain ⟨k2, v2⟩ := p
    by_cases h : k2 = k
    · subst h
      simp [objSet, List.lookup]
    · have hb : (k == k2) = false := beq_eq_false_iff_ne.mpr (Ne.symm h)
      simp [objSet, h, List.lookup, hb, ih]

/-- Assigning a key leaves every other key's binding unchanged. -/
theorem objSet_lookup_ne (o : JObj) (k : String) (v : Json) (k2 : String) (h : k2 ≠ k) :
    (objSet o k v).lookup k2 = o.lookup k2 := by
  induction o with
  | nil =>
    have hb : (k2 == k) = false := beq_eq_false_iff_ne.mpr h
    simp [objSet, List.lookup, hb]
  | cons p rest ih =>
    obtain ⟨k3, v3⟩ := p
    by_cases h3 : k3 = k
    · subst h3
      have hb : (k2 == k3) = false := beq_eq_false_iff_ne.mpr h
      simp [objSet, List.lookup, hb]
    · by_cases h23 : k2 = k3
      · subst h23
        simp [objSet, h3, List.lookup]
      · have hb : (k2 == k3) = false := beq_eq_false_iff_ne.mpr h23
        simp [objSet, h3, List.lookup, hb, ih]

/-- The echo loop's effect on a single key: an echoed field present in the
input ends up bound to the input's value; any other key keeps the base
response's binding. -/
theorem applyEcho_lookup (r : JObj) (fields : List String) (data : JObj) (f : String) :
    (applyEcho r fields data).lookup f =
      if f ∈ fields ∧ (data.lookup f).isSome then data.lookup f else r.lookup f := by
  induction fields generalizing r with
  | nil => simp [applyEcho]
  | cons g rest ih =>
    have step : applyEcho r (g :: rest) data =
        applyEcho (match data.lookup g with
          | some v => objSet r g v
          | none => r) rest data := by
      simp [applyEcho, List.foldl]
    rw [step, ih]
    by_cases hmem : f ∈ rest ∧ (data.lookup f).isSome
    · have hc : f ∈ g :: rest ∧ (data.lookup f).isSome :=
        ⟨List.mem_cons_of_mem g hmem.1, hmem.2⟩
      simp only [if_pos hmem, if_pos hc]
    · by_cases hf : f = g
      · subst hf
        cases hd : data.lookup f with
        | none => simp [hd]
        | some v =>
          have hnr : f ∉ rest := fun hin => hmem ⟨hin, by simp [hd]⟩
          simp [hd, hnr, objSet_lookup_self]
      · have hc : ¬ (f ∈ g :: rest ∧ (data.lookup f).isSome) := by
          intro hcon
          rcases List.mem_cons.mp hcon.1 with h1 | h1
          · exact hf h1
          · exact hmem ⟨h1, hcon.2⟩
        simp only [if_neg hmem, if_neg hc]
        cases hd : data.lookup g with
        | none => rfl
        | some v => rw [objSet_lookup_ne _ _ _ _ hf]

/-- One formatting step over an ordinary (non-brace) character. -/
theorem pyFmt_cons (kwargs : List (String × Json)) (c : Char) (l : List Char)
    (h1 : c ≠ lbrace) (h2 : c ≠ rbrace) :
    pyFmt kwargs (c :: l) = (pyFmt kwargs l).map (fun r => c :: r) := by
  have h0 : pyFmt kwargs (c :: l) =
      if c = lbrace then
        match l with
        | [] => Except.error PyErr.valueError
        | c2 :: cs2 =>
          if c2 = lbrace then (pyFmt kwargs cs2).map (fun r => lbrace :: r)
          else pyFmtField kwargs [] (c2 :: cs2)
      else if c = rbrace then
        match l with
        | [] => Except.error PyErr.valueError
        | c2 :: cs2 =>
          if c2 = rbrace then (pyFmt kwargs cs2).map (fun r => rbrace :: r)
          else Except.error PyErr.valueError
      else (pyFmt kwargs l).map (fun r => c :: r) := by
    rw [pyFmt.eq_def]
  rw [h0, if_neg h1, if_neg h2]

/-- Formatting passes brace-free text through unchanged. -/
theorem pyFmt_noBrace (kwargs : List (String × Json)) (pre rest : List Char)
    (h : ∀ c ∈ pre, c ≠ lbrace ∧ c ≠ rbrace) :
    pyFmt kwargs (pre ++ rest) = (pyFmt kwargs rest).map (fun r => pre ++ r) := by
  induction pre with
  | nil =>
    cases hres : pyFmt kwargs rest <;> simp [Except.map, hres]
  | cons c cs ih =>
    have hc := h c (List.mem_cons_self c cs)
    have hcs : ∀ c2 ∈ cs, c2 ≠ lbrace ∧ c2 ≠ rbrace :=
      fun c2 hm => h c2 (List.mem_cons_of_mem c hm)
    rw [List.cons_append, pyFmt_cons kwargs c (cs ++ rest) hc.1 hc.2, ih hcs]
    cases hres : pyFmt kwargs rest <;> simp [Except.map, hres]

/-- Formatting the bare `\x7bts\x7d` field against `ts` followed by any data
substitutes the timestamp. -/
theorem pyFmt_ts (ts : String) (data : JObj) :
    pyFmt (("ts", Json.str ts) :: data) [lbrace, 't', 's', rbrace] = Except.ok ts.data := by
  have h : pyFmt (("ts", Json.str ts) :: data) [lbrace, 't', 's', rbrace] =
      Except.ok (ts.data ++ []) := rfl
  rw [h, List.append_nil]

/-- Resolving a template of the shape `<brace-free prefix>\x7bts\x7d` substitutes a
fresh timestamp, for any input that does not itself bind `ts`. -/
theorem resolveValE_prefix_ts (p ts : String) (data : JObj)
    (hp : ∀ c ∈ p.data, c ≠ lbrace ∧ c ≠ rbrace) (hd : data.lookup "ts" = none) :
    resolveValE ts data (Json.str (p ++ String.mk [lbrace, 't', 's', rbrace])) =
      Except.ok (Json.str (p ++ ts)) := by
  have hbrace : strHas (p ++ String.mk [lbrace, 't', 's', rbrace]) lbrace = true := by
    simp only [strHas, String.data_append, List.any_append, Bool.or_eq_true]
    right
    decide
  have hdata : (p ++ String.mk [lbrace, 't', 's', rbrace]).data =
      p.data ++ [lbrace, 't', 's', rbrace] := String.data_append p _
  simp only [resolveValE, hbrace, if_true, formatCall, hd, Option.isSome_none,
    Bool.false_eq_true, if_false, hdata, pyFmt_noBrace _ _ _ hp, pyFmt_ts, Except.map]
  rfl

/-- Resolving a response whose string values are all brace-free changes
nothing. -/
theorem resolveTemplatesE_id (ts : String) (data : JObj) (base : JObj)
    (h : ∀ kv ∈ base, ∀ s, kv.2 = Json.str s → strHas s lbrace = false) :
    resolveTemplatesE ts data base = Except.ok base := by
  induction base with
  | nil => rfl
  | cons kv rest ih =>
    obtain ⟨k, v⟩ := kv
    have hrest : ∀ kv2 ∈ rest, ∀ s, kv2.2 = Json.str s → strHas s lbrace = false :=
      fun kv2 hm => h kv2 (List.mem_cons_of_mem _ hm)
    have hv : resolveValE ts data v = Except.ok v := by
      cases v with
      | str s =>
        have := h (k, Json.str s) (List.mem_cons_self _ _) s rfl
        simp [resolveValE, this]
      | null => rfl
      | bool b => rfl
      | num n => rfl
      | arr xs => rfl
      | obj kvs => rfl
    simp [resolveTemplatesE, hv, ih hrest, Bind.bind, Except.bind]

/-- Resolving the catalog's two-field `status`/`<id>_\x7bts\x7d` response shape. -/
theorem resolveTemplatesE_status_ts (stat key p ts : String) (data : JObj)
    (hstat : strHas stat lbrace = false)
    (hp : ∀ c ∈ p.data, c ≠ lbrace ∧ c ≠ rbrace) (hd : data.lookup "ts" = none) :
    resolveTemplatesE ts data
        [("status", Json.str stat), (key, Json.str (p ++ String.mk [lbrace, 't', 's', rbrace]))] =
      Except.ok [("status", Json.str stat), (key, Json.str (p ++ ts))] := by
  have h1 : resolveValE ts data (Json.str stat) = Except.ok (Json.str stat) := by
    simp [resolveValE, hstat]
  have h2 := resolveValE_prefix_ts p ts data hp hd
  simp [resolveTemplatesE, h1, h2, Bind.bind, Except.bind]

/-- A successful template resolution determines the whole `write_action`
response. -/
theorem writeAction_eq (td : ToolDef) (ts : String) (data : JObj) (T : JObj)
    (hT : resolveTemplatesE ts data (td.default_response.getD [("success", Json.bool true)]) =
      Except.ok T) :
    writeAction td ts data = Except.ok (applyEcho T (td.echo_fields.getD []) data) := by
  simp [writeAction, hT, Bind.bind, Except.bind]

/-- Every character a timestamp field renders is a decimal digit. -/
theorem digitChar10_isDigit (n : Nat) : (digitChar10 n).isDigit = true := by
  have h : n % 10 < 10 := Nat.mod_lt _ (by norm_num)
  unfold digitChar10
  generalize hg : n % 10 = r at h
  interval_cases r <;> decide

/-- Both characters of a two-digit field are digits. -/
theorem pad2_digits (n : Nat) : ∀ c ∈ (pad2 n).data, c.isDigit = true := by
  intro c hc
  simp only [pad2, List.mem_cons, List.not_mem_nil, or_false] at hc
  rcases hc with h | h <;> (rw [h]; exact digitChar10_isDigit _)

/-- All four characters of the year field are digits. -/
theorem pad4_digits (n : Nat) : ∀ c ∈ (pad4 n).data, c.isDigit = true := by
  intro c hc
  simp only [pad4, List.mem_cons, List.not_mem_nil, or_false] at hc
  rcases hc with h | h | h | h <;> (rw [h]; exact digitChar10_isDigit _)

/-- The generated `\x7bts\x7d` timestamp is exactly 14 characters, all digits. -/
theorem strftime14_spec (t : UTCTime) :
    (strftime14 t).length = 14 ∧ ∀ c ∈ (strftime14 t).data, c.isDigit = true := by
  constructor
  · simp [strftime14, pad4, pad2, String.length_append]
  · intro c hc
    simp only [strftime14, String.data_append, List.mem_append] at hc
    rcases hc with ((((hc | hc) | hc) | hc) | hc) | hc
    · exact pad4_digits _ _ hc
    · exact pad2_digits _ _ hc
    · exact pad2_digits _ _ hc
    · exact pad2_digits _ _ hc
    · exact pad2_digits _ _ hc
    · exact pad2_digits _ _ hc

/-- Membership in the catalog determines the dispatch lookup (tool names are
unique keys). -/
theorem lookup_of_mem (name : String) (td : ToolDef) (hmem : (name, td) ∈ TOOL_CATALOG) :
    TOOL_CATALOG.lookup name = some td := by
  fin_cases hmem <;> rfl

/-- The behavior chain on a `fixture_list` entry. -/
theorem runBehavior_list (env : Env) (scenario : String) (td : ToolDef) (data : JObj)
    (hb : td.behavior = "fixture_list") :
    runBehavior env scenario td data =
      (fixtureList env scenario td).mapError DispatchErr.uncaught := by
  simp [runBehavior, hb]

/-- The behavior chain on a `fixture_lookup` entry. -/
theorem runBehavior_lookup (env : Env) (scenario : String) (td : ToolDef) (data : JObj)
    (hb : td.behavior = "fixture_lookup") :
    runBehavior env scenario td data =
      (fixtureLookup env scenario td data).mapError DispatchErr.uncaught := by
  simp [runBehavior, hb]

/-- The behavior chain on a `write_action` entry. -/
theorem runBehavior_write (env : Env) (scenario : String) (td : ToolDef) (data : JObj)
    (hb : td.behavior = "write_action") :
    runBehavior env scenario td data =
      (writeAction td (strftime14 env.now) data).mapError DispatchErr.uncaught := by
  simp [runBehavior, hb]

/-- The behavior chain on a `custom` entry with a registered handler. -/
theorem runBehavior_custom (env : Env) (scenario : String) (td : ToolDef) (data : JObj)
    (hb : td.behavior = "custom") :
    runBehavior env scenario td data =
      match td.handler with
      | none => Except.error (DispatchErr.uncaught PyErr.keyError)
      | some hn =>
        match runHandler hn env scenario data with
        | none => Except.error (DispatchErr.http 500 ("Missing handler: " ++ hn))
        | some r => r.mapError DispatchErr.uncaught := by
  simp [runBehavior, hb]

/-- A well-shaped template decomposes as a brace-free prefix before `\x7bts\x7d`. -/
theorem tsTemplateOk_decomp (l : List Char) (h : tsTemplateOk l = true) :
    ∃ p, l = p ++ tsSuffix ∧ ∀ c ∈ p, c ≠ lbrace ∧ c ≠ rbrace := by
  induction l with
  | nil => simp [tsTemplateOk] at h
  | cons c cs ih =>
    by_cases he : c :: cs = tsSuffix
    · exact ⟨[], by simpa using he, by simp⟩
    · rw [tsTemplateOk, if_neg he] at h
      by_cases hbr : c = lbrace ∨ c = rbrace
      · rw [if_pos hbr] at h
        exact absurd h (by simp)
      · rw [if_neg hbr] at h
        obtain ⟨p, hp, hpf⟩ := ih h
        push_neg at hbr
        refine ⟨c :: p, by simp [hp], ?_⟩
        intro c2 hc2
        rcases List.mem_cons.mp hc2 with h2 | h2
        · exact h2 ▸ hbr
        · exact hpf c2 h2

/-- Over a well-shaped default response, template resolution never raises for
any input not binding `ts` when a placeholder is present. -/
theorem templatesOk_resolve (ts : String) (data : JObj) (base : JObj)
    (hok : templatesOkB base = true)
    (hdc : base.any braceKV = true → data.lookup "ts" = none) :
    ∃ T, resolveTemplatesE ts data base = Except.ok T := by
  induction base with
  | nil => exact ⟨[], rfl⟩
  | cons kv rest ih =>
    obtain ⟨k, v⟩ := kv
    simp only [templatesOkB, List.all_cons, Bool.and_eq_true] at hok
    obtain ⟨hv, hrest⟩ := hok
    have hdcrest : rest.any braceKV = true → data.lookup "ts" = none := by
      intro ha
      exact hdc (by simp [List.any_cons, ha])
    obtain ⟨T2, hT2⟩ := ih hrest hdcrest
    have hval : ∃ v2, resolveValE ts data v = Except.ok v2 := by
      cases v with
      | str sv =>
        by_cases hbr : strHas sv lbrace = true
        · have hts : data.lookup "ts" = none := by
            refine hdc ?_
            simp [List.any_cons, braceKV, hbr]
          simp only [if_pos hbr] at hv
          obtain ⟨p, hp, hpf⟩ := tsTemplateOk_decomp sv.data hv
          have hsv : sv = String.mk p ++ String.mk tsSuffix := by
            apply String.ext
            simpa [String.data_append] using hp
          have hpf2 : ∀ c ∈ (String.mk p).data, c ≠ lbrace ∧ c ≠ rbrace := hpf
          rw [hsv]
          exact ⟨_, resolveValE_prefix_ts (String.mk p) ts data hpf2 hts⟩
        · have hbf : strHas sv lbrace = false := by
            cases hc : strHas sv lbrace with
            | true => exact absurd hc hbr
            | false => rfl
          exact ⟨Json.str sv, by simp [resolveValE, hbf]⟩
      | null => exact ⟨Json.null, rfl⟩
      | bool b => exact ⟨Json.bool b, rfl⟩
      | num n => exact ⟨Json.num n, rfl⟩
      | arr xs => exact ⟨Json.arr xs, rfl⟩
      | obj kvs => exact ⟨Json.obj kvs, rfl⟩
    obtain ⟨v2, hv2⟩ := hval
    exact ⟨(k, v2) :: T2, by simp [resolveTemplatesE, hv2, hT2, Bind.bind, Except.bind]⟩

/-- C1: for every catalog entry with behavior `fixture_lookup` (and a
well-formed fixture: absent, or an array of record objects), dispatch returns
`\x7b<response_key>: null, found: false\x7d` when the fixture is absent; otherwise
the lookup value is the first non-null among the entry's primary parameter name
and the generic `id` key (defaulting to the empty string) and the result wraps
the first record in fixture-file order whose lookup field stringifies equal to
the stringified lookup value (`found: true`), or a null payload with
`found: false` when no record matches.  The comparison is string-based, so a
numeric fixture id matches the same id passed as a string argument. -/
theorem fixture_lookup_dispatch_correct (name : String) (td : ToolDef) (env : Env)
    (st : ServerState) (body : Body)
    (hmem : (name, td) ∈ TOOL_CATALOG) (hb : td.behavior = "fixture_lookup")
    (hwf : fixtureWF (load_fixture env st.currentScenario (td.fixture.getD "")) = true) :
    (handle_tool env st name body).1 =
      Except.ok (lookupResultSpec td
        (load_fixture env st.currentScenario (td.fixture.getD "")) (parseBody body)) ∧
    (∀ n : Int, pyStr (Json.num n) = toString n ∧ pyStr (Json.str (toString n)) = toString n) := by
  constructor
  · rw [handle_tool_fst env st body (lookup_of_mem name td hmem),
      runBehavior_lookup env st.currentScenario td (parseBody body) hb,
      fixtureLookup_spec env st.currentScenario td (parseBody body) hwf]
    rfl
  · intro n
    exact ⟨rfl, rfl⟩

/-- C1 witness: a concrete lookup against a fixture whose record carries the
numeric id `42`, queried with the string argument `"42"`, returns that exact
record with `found: true`. -/
theorem fixture_lookup_dispatch_correct_witness :
    (handle_tool envW stW "email.read" (Body.obj [("message_id", Json.str "42")])).1 =
      Except.ok [("email", Json.obj [("id", Json.num 42), ("subject", Json.str "Hi")]),
        ("found", Json.bool true)] := by
  have h := fixture_lookup_dispatch_correct "email.read" emailReadDef envW stW
    (Body.obj [("message_id", Json.str "42")]) (by decide) rfl (by decide)
  rw [h.1]
  decide

set_option maxRecDepth 100000 in
/-- C4: dispatching a tool name absent from the catalog fails with a 404
`UnknownTool` error whose detail string lists every registered tool name
(sorted), and leaves the server state — scenario and success log included —
unchanged. -/
theorem unknown_tool_404 (env : Env) (st : ServerState) (tool : String) (body : Body)
    (h : TOOL_CATALOG.lookup tool = none) :
    handle_tool env st tool body =
      (Except.error (DispatchErr.http 404 (unknownToolMsg tool)), st) ∧
    unknownToolMsg tool =
      "Unknown tool: " ++ tool ++ ". Known tools: " ++
        pyRepr (Json.arr (sortedToolNames.map Json.str)) ∧
    (∀ p ∈ TOOL_CATALOG, p.1 ∈ sortedToolNames) ∧
    (∀ p ∈ TOOL_CATALOG,
      hasRun ("'" ++ p.1 ++ "'").data
        (pyRepr (Json.arr (sortedToolNames.map Json.str))).data = true) := by
  refine ⟨?_, rfl, ?_, ?_⟩
  · unfold handle_tool
    rw [h]
  · decide
  · decide

/-- C4 witness: a concrete unknown tool name produces the 404 with the
enumerating detail and no state change. -/
theorem unknown_tool_404_witness :
    handle_tool envW stW "zzz.unknown" Body.empty =
      (Except.error (DispatchErr.http 404 (unknownToolMsg "zzz.unknown")), stW) :=
  (unknown_tool_404 envW stW "zzz.unknown" Body.empty (by decide)).1

/-- C5: after `set_scenario B` the success-call log and the all-requests log
are both empty, the reported scenario is `B`, and a subsequent `fixture_list`
dispatch (`calendar.read`) resolves its fixture under scenario `B`. -/
theorem set_scenario_switch (st : ServerState) (B : String) :
    (set_scenario st B).2.toolCalls = [] ∧
    (set_scenario st B).2.allRequests = [] ∧
    (set_scenario st B).2.currentScenario = B ∧
    (set_scenario st B).1 = [("scenario", Json.str B)] ∧
    (∀ env body,
      (handle_tool env (set_scenario st B).2 "calendar.read" body).1 =
        Except.ok [("events", (load_fixture env B "calendar.json").getD (Json.arr []))]) := by
  refine ⟨rfl, rfl, rfl, rfl, ?_⟩
  intro env body
  rw [handle_tool_fst env (set_scenario st B).2 body
    (show TOOL_CATALOG.lookup "calendar.read" = some calendarReadDef from rfl),
    runBehavior_list env _ calendarReadDef (parseBody body) rfl]
  rfl

/-- C9: for every tool, a request body that is not parseable as JSON (or an
empty body) is degraded to the empty argument object: the dispatch behaves
exactly as if called with `\x7b\x7d`. -/
theorem malformed_body_degrades (env : Env) (st : ServerState) (tool : String) (raw : String) :
    handle_tool env st tool (Body.malformed raw) = handle_tool env st tool (Body.obj []) ∧
    handle_tool env st tool Body.empty = handle_tool env st tool (Body.obj []) :=
  ⟨rfl, rfl⟩

set_option maxRecDepth 4096 in
/-- C10: the note-read handler joins the caller-supplied path onto the
scenario's memory directory with no sanitisation, so an absolute path argument
(which makes the join discard the base) and a `..`-laden relative argument both
read `/etc/shadow` — a file outside the `/srv/fixtures` tree — and return its
contents with `exists: true`. -/
theorem memory_read_path_traversal :
    (handle_tool envW stW "memory.read" (Body.obj [("path", Json.str "/etc/shadow")])).1 =
      Except.ok [("content", Json.str "secret"), ("exists", Json.bool true)] ∧
    (handle_tool envW stW "memory.read"
        (Body.obj [("path", Json.str "../../../../etc/shadow")])).1 =
      Except.ok [("content", Json.str "secret"), ("exists", Json.bool true)] ∧
    envW.textFiles "/etc/shadow" = some "secret" ∧
    normalizePath (joinPath (joinPath (joinPath envW.fixturesPath "demo") "memory")
      "/etc/shadow") = "/etc/shadow" ∧
    normalizePath (joinPath (joinPath (joinPath envW.fixturesPath "demo") "memory")
      "../../../../etc/shadow") = "/etc/shadow" ∧
    leadsWith envW.fixturesPath.data "/etc/shadow".data = false := by
  refine ⟨?_, ?_, rfl, by decide, by decide, by decide⟩ <;> decide

/-- The web-search handler agrees everywhere with the spec-side description
(truthiness folded into non-emptiness conditions, the unhashable-query
`TypeError` included). -/
theorem handle_search_web_eq (env : Env) (scenario : String) (data : JObj) :
    handle_search_web env scenario data =
      searchSpec (flexget data ["query", "q"] (Json.str ""))
        (load_fixture env scenario "web_search_results.json") := by
  unfold handle_search_web searchSpec
  cases hf : load_fixture env scenario "web_search_results.json" with
  | none => rfl
  | some r =>
    cases r with
    | obj kvs =>
      cases kvs with
      | nil => rfl
      | cons kv rest =>
        have ht : truthy (Json.obj (kv :: rest)) = true := by simp [truthy]
        simp only [ht, if_true, List.isEmpty_cons, Bool.false_eq_true, if_false]
    | arr xs =>
      cases xs with
      | nil => rfl
      | cons x rest =>
        have ht : truthy (Json.arr (x :: rest)) = true := by simp [truthy]
        simp only [ht, if_true, List.isEmpty_cons, Bool.false_eq_true, if_false]
    | null => rfl
    | bool b => cases b <;> rfl
    | num n => cases htr : truthy (Json.num n) <;> simp [htr]
    | str s2 => cases htr : truthy (Json.str s2) <;> simp [htr]

/-- C6 (amended): the web-search dispatch realises: a non-empty mapping fixture
whose keys contain the resolved string query returns that entry's results; a
non-empty sequence fixture is returned unfiltered; a JSON array or object query
against a non-empty mapping fixture raises an uncaught `TypeError` (the
dict-membership test hashes the query), failing the dispatch; every other case
— no fixture, an empty fixture (which Python truthiness treats as absent), or
a hashable query with no matching key — returns the single synthesized
placeholder result, so an unmatched query the handler completes on never
yields an empty result set. -/
theorem search_web_dispatch_spec (env : Env) (st : ServerState) (body : Body) :
    (handle_tool env st "search.web" body).1 =
      (searchSpec (flexget (parseBody body) ["query", "q"] (Json.str ""))
        (load_fixture env st.currentScenario "web_search_results.json")).mapError
          DispatchErr.uncaught ∧
    (∀ q, searchSpec q none = Except.ok [("results", Json.arr [searchPlaceholder q])]) ∧
    (∀ q, [searchPlaceholder q] ≠ ([] : List Json)) := by
  refine ⟨?_, fun q => rfl, fun q => by simp⟩
  rw [handle_tool_fst env st body
    (show TOOL_CATALOG.lookup "search.web" = some searchWebDef from rfl)]
  have hrb : runBehavior env st.currentScenario searchWebDef (parseBody body) =
      (handle_search_web env st.currentScenario (parseBody body)).mapError
        DispatchErr.uncaught := rfl
  rw [hrb, handle_search_web_eq]

/-- C6 counterexample, refuting two clauses of the claim as stated.  First,
with the scenario's search fixture being the empty sequence `[]` — a plain
sequence — the handler does not return it unfiltered: Python truthiness routes
it to the synthesized placeholder instead.  Second, an array query against a
non-empty mapping fixture (an unmatched query) does not get the placeholder:
the dict-membership test raises an uncaught `TypeError`, so the dispatch fails
with no result at all. -/
theorem search_web_dispatch_counterexample :
    load_fixture envW "demo" "web_search_results.json" = some (Json.arr []) ∧
    (handle_tool envW stW "search.web" (Body.obj [("query", Json.str "rust")])).1 =
      Except.ok [("results", Json.arr [searchPlaceholder (Json.str "rust")])] ∧
    Except.ok [("results", Json.arr [searchPlaceholder (Json.str "rust")])] ≠
      (Except.ok [("results", Json.arr [])] : Except DispatchErr JObj) ∧
    load_fixture envM "demo" "web_search_results.json" =
      some (Json.obj [("rust", Json.arr [Json.obj [("title", Json.str "Rust")]])]) ∧
    (handle_tool envM stW "search.web" (Body.obj [("query", Json.arr [])])).1 =
      Except.error (DispatchErr.uncaught PyErr.typeError) := by
  refine ⟨rfl, ?_, by decide, rfl, ?_⟩ <;> decide

/-- Stripping the channel marker commutes with prepending it. -/
theorem lstripHash_hash (c : String) : lstripHash ("#" ++ c) = lstripHash c := by
  unfold lstripHash
  rw [String.data_append]
  simp [List.dropWhile]

/-- The slack handler, on a one-key channel argument, in evaluated form. -/
theorem handle_slack_on_channel (env : Env) (scenario : String) (s : String) :
    handle_slack_read_messages env scenario [("channel", Json.str s)] =
      if truthy (Json.str s) then
        match (match load_fixture env scenario "slack_messages.json" with
          | none => Json.arr []
          | some v => if truthy v then v else Json.arr []) with
        | Json.arr ms =>
          (filterE (msgMatches (lstripHash s)) ms).map
            (fun ok2 => [("messages", Json.arr ok2)])
        | _ => Except.error PyErr.typeError
      else
        Except.ok [("messages",
          (match load_fixture env scenario "slack_messages.json" with
            | none => Json.arr []
            | some v => if truthy v then v else Json.arr []))] := rfl

/-- The filtered-messages handler returns identical results for a channel id
with and without the marker prefix, for any non-empty channel id. -/
theorem handle_slack_hash (env : Env) (scenario : String) (c : String) (h : c ≠ "") :
    handle_slack_read_messages env scenario [("channel", Json.str ("#" ++ c))] =
      handle_slack_read_messages env scenario [("channel", Json.str c)] := by
  have hne : "#" ++ c ≠ "" := by
    intro he
    have h2 := congrArg String.data he
    rw [String.data_append] at h2
    simp at h2
  have ht1 : truthy (Json.str ("#" ++ c)) = true := by simp [truthy, hne]
  have ht2 : truthy (Json.str c) = true := by simp [truthy, h]
  rw [handle_slack_on_channel, handle_slack_on_channel, ht1, ht2, lstripHash_hash]

/-- C7 (amended): for every message fixture and every non-empty channel id `c`,
calling the filtered-messages dispatch with `"#" ++ c` and with `c` returns
identical results (both sides are compared after stripping leading markers);
with no channel argument the full message sequence (empty if the fixture is
absent) is returned. -/
theorem slack_channel_marker_insensitive (env : Env) (st : ServerState) (c : String)
    (h : c ≠ "") :
    (handle_tool env st "slack.read_messages"
        (Body.obj [("channel", Json.str ("#" ++ c))])).1 =
      (handle_tool env st "slack.read_messages" (Body.obj [("channel", Json.str c)])).1 ∧
    (∀ ms, load_fixture env st.currentScenario "slack_messages.json" = some (Json.arr ms) →
      (handle_tool env st "slack.read_messages" (Body.obj [])).1 =
        Except.ok [("messages", Json.arr ms)]) ∧
    (load_fixture env st.currentScenario "slack_messages.json" = none →
      (handle_tool env st "slack.read_messages" (Body.obj [])).1 =
        Except.ok [("messages", Json.arr [])]) := by
  have hlk : TOOL_CATALOG.lookup "slack.read_messages" = some slackReadDef := rfl
  have hrb : ∀ data, runBehavior env st.currentScenario slackReadDef data =
      (handle_slack_read_messages env st.currentScenario data).mapError DispatchErr.uncaught :=
    fun data => rfl
  refine ⟨?_, ?_, ?_⟩
  · rw [handle_tool_fst env st _ hlk, handle_tool_fst env st _ hlk, hrb, hrb]
    simp only [parseBody]
    rw [handle_slack_hash env st.currentScenario c h]
  · intro ms hms
    rw [handle_tool_fst env st _ hlk, hrb]
    simp only [parseBody]
    have hstep : handle_slack_read_messages env st.currentScenario [] =
        Except.ok [("messages",
          (match load_fixture env st.currentScenario "slack_messages.json" with
            | none => Json.arr []
            | some v => if truthy v then v else Json.arr []))] := rfl
    rw [hstep, hms]
    cases ms with
    | nil => rfl
    | cons m rest =>
      have ht : truthy (Json.arr (m :: rest)) = true := by simp [truthy]
      simp [ht, Except.mapError]
  · intro hms
    rw [handle_tool_fst env st _ hlk, hrb]
    simp only [parseBody]
    have hstep : handle_slack_read_messages env st.currentScenario [] =
        Except.ok [("messages",
          (match load_fixture env st.currentScenario "slack_messages.json" with
            | none => Json.arr []
            | some v => if truthy v then v else Json.arr []))] := rfl
    rw [hstep, hms]
    rfl

/-- C7 witness: a concrete fixture filtered by `"#general"` and by `"general"`
yields the same (non-trivial) result. -/
theorem slack_channel_marker_insensitive_witness :
    (handle_tool envW stW "slack.read_messages"
        (Body.obj [("channel", Json.str ("#" ++ "general"))])).1 =
      (handle_tool envW stW "slack.read_messages"
        (Body.obj [("channel", Json.str "general")])).1 :=
  (slack_channel_marker_insensitive envW stW "general" (by decide)).1

/-- C7 counterexample: with the empty channel id, `"#"` (marker plus empty id)
filters everything out while `""` is falsy and disables the filter, returning
the whole fixture — the two result sets differ, refuting the unrestricted
claim. -/
theorem slack_channel_empty_counterexample :
    (handle_tool envW stW "slack.read_messages" (Body.obj [("channel", Json.str "#")])).1 =
      Except.ok [("messages", Json.arr [])] ∧
    (handle_tool envW stW "slack.read_messages" (Body.obj [("channel", Json.str "")])).1 =
      Except.ok [("messages",
        Json.arr [Json.obj [("channel", Json.str "general"), ("text", Json.str "hello")]])] ∧
    (Except.ok [("messages", Json.arr [])] : Except DispatchErr JObj) ≠
      Except.ok [("messages",
        Json.arr [Json.obj [("channel", Json.str "general"), ("text", Json.str "hello")]]) ] := by
  refine ⟨?_, ?_, by decide⟩ <;> decide

/-- C2 (amended): for every `write_action` catalog entry, and every input that
does not bind the reserved `ts` key while the entry's template contains a
placeholder (without that restriction the `format` call raises, see the
counterexample): the dispatch succeeds, each field of the echo list present in
the input appears in the response with exactly the input's value — overriding
any template-derived binding of the same key — and a field absent from the
input keeps the template-derived response's binding (in particular it is not
added). -/
theorem write_action_echo_fields (name : String) (td : ToolDef) (env : Env)
    (st : ServerState) (body : Body)
    (hmem : (name, td) ∈ TOOL_CATALOG) (hb : td.behavior = "write_action")
    (hts : hasBraceTemplate td = true → (parseBody body).lookup "ts" = none) :
    ∃ T, resolveTemplatesE (strftime14 env.now) (parseBody body)
        (td.default_response.getD [("success", Json.bool true)]) = Except.ok T ∧
      (handle_tool env st name body).1 =
        Except.ok (applyEcho T (td.echo_fields.getD []) (parseBody body)) ∧
      (∀ f ∈ td.echo_fields.getD [], ∀ v, (parseBody body).lookup f = some v →
        (applyEcho T (td.echo_fields.getD []) (parseBody body)).lookup f = some v) ∧
      (∀ f, (parseBody body).lookup f = none →
        (applyEcho T (td.echo_fields.getD []) (parseBody body)).lookup f = T.lookup f) := by
  have hok : templatesOkB (td.default_response.getD [("success", Json.bool true)]) = true := by
    fin_cases hmem <;> decide
  obtain ⟨T, hT⟩ := templatesOk_resolve (strftime14 env.now) (parseBody body) _ hok hts
  refine ⟨T, hT, ?_, ?_, ?_⟩
  · rw [handle_tool_fst env st body (lookup_of_mem name td hmem),
      runBehavior_write env st.currentScenario td (parseBody body) hb,
      writeAction_eq td (strftime14 env.now) (parseBody body) T hT]
    rfl
  · intro f hf v hv
    rw [applyEcho_lookup]
    simp [hf, hv]
  · intro f hv
    rw [applyEcho_lookup]
    simp [hv]

/-- C2 witness: `task.update` on an input binding both an echo-only field and
the template-derived `status` key echoes the input values, overriding the
template's `status`. -/
theorem write_action_echo_fields_witness :
    (handle_tool envW stW "task.update"
        (Body.obj [("task_id", Json.str "T-1"), ("status", Json.str "done")])).1 =
      Except.ok [("status", Json.str "done"), ("task_id", Json.str "T-1")] := by
  obtain ⟨T, hT, hres, hecho, hnone⟩ := write_action_echo_fields "task.update" taskUpdateDef
    envW stW (Body.obj [("task_id", Json.str "T-1"), ("status", Json.str "done")])
    (by decide) rfl (fun hbr => absurd hbr (by decide))
  have h2 : resolveTemplatesE (strftime14 envW.now)
      (parseBody (Body.obj [("task_id", Json.str "T-1"), ("status", Json.str "done")]))
      (taskUpdateDef.default_response.getD [("success", Json.bool true)]) =
      Except.ok [("status", Json.str "updated")] := by decide
  rw [h2] at hT
  have hTc : T = [("status", Json.str "updated")] := (Except.ok.inj hT).symm
  rw [hres, hTc]
  decide

/-- C2 counterexample: `calendar.create` lists `title` in its echo list and the
input binds it, yet because the input also binds `ts` (and the template
contains a placeholder) the `format(ts=..., **data)` call raises `TypeError`,
so the dispatch produces no response at all — the claim fails for this input
object. -/
theorem write_action_echo_fields_counterexample :
    ("calendar.create", calendarCreateDef) ∈ TOOL_CATALOG ∧
    calendarCreateDef.behavior = "write_action" ∧
    "title" ∈ calendarCreateDef.echo_fields.getD [] ∧
    (parseBody (Body.obj [("ts", Json.num 1), ("title", Json.str "Standup")])).lookup "title" =
      some (Json.str "Standup") ∧
    handle_tool envW stW "calendar.create"
        (Body.obj [("ts", Json.num 1), ("title", Json.str "Standup")]) =
      (Except.error (DispatchErr.uncaught PyErr.typeError), stW) := by
  refine ⟨by decide, rfl, by decide, rfl, ?_⟩
  decide

/-- C3 (amended): for every `write_action` catalog entry and every input not
binding the reserved `ts` key while a template value has a placeholder (such an
input makes the `format` call itself raise, see the counterexample): the
response is the clone of the default-response template with every placeholder-
bearing string value resolved — substituting a freshly generated timestamp,
which is exactly 14 digits — followed by the echo copy; a `KeyError` or
`IndexError` from an unresolvable named placeholder never raises but falls back
to substituting only the `\x7bts\x7d` token, leaving other placeholders literal. -/
theorem write_action_template_substitution (name : String) (td : ToolDef) (env : Env)
    (st : ServerState) (body : Body)
    (hmem : (name, td) ∈ TOOL_CATALOG) (hb : td.behavior = "write_action")
    (hts : hasBraceTemplate td = true → (parseBody body).lookup "ts" = none) :
    ∃ T, resolveTemplatesE (strftime14 env.now) (parseBody body)
        (td.default_response.getD [("success", Json.bool true)]) = Except.ok T ∧
      (handle_tool env st name body).1 =
        Except.ok (applyEcho T (td.echo_fields.getD []) (parseBody body)) ∧
      (strftime14 env.now).length = 14 ∧
      (∀ c ∈ (strftime14 env.now).data, c.isDigit = true) ∧
      (∀ s, strHas s lbrace = true →
        (formatCall s (strftime14 env.now) (parseBody body) = Except.error PyErr.keyError ∨
         formatCall s (strftime14 env.now) (parseBody body) = Except.error PyErr.indexError) →
        resolveValE (strftime14 env.now) (parseBody body) (Json.str s) =
          Except.ok (Json.str (replaceTs s (strftime14 env.now)))) ∧
      (∀ ts2 : String, replaceTs "x_\x7bmissing\x7d_\x7bts\x7d" ts2 = "x_\x7bmissing\x7d_" ++ ts2) := by
  have hok : templatesOkB (td.default_response.getD [("success", Json.bool true)]) = true := by
    fin_cases hmem <;> decide
  obtain ⟨T, hT⟩ := templatesOk_resolve (strftime14 env.now) (parseBody body) _ hok hts
  refine ⟨T, hT, ?_, (strftime14_spec env.now).1, (strftime14_spec env.now).2, ?_, ?_⟩
  · rw [handle_tool_fst env st body (lookup_of_mem name td hmem),
      runBehavior_write env st.currentScenario td (parseBody body) hb,
      writeAction_eq td (strftime14 env.now) (parseBody body) T hT]
    rfl
  · intro s hbr he
    rcases he with he | he <;> simp [resolveValE, hbr, he]
  · intro ts2
    have h : replaceTs "x_\x7bmissing\x7d_\x7bts\x7d" ts2 =
        String.mk ("x_\x7bmissing\x7d_".data ++ (ts2.data ++ [])) := rfl
    rw [h, List.append_nil]
    rfl

/-- C3 witness: `calendar.create` called with `\x7btitle: "Standup"\x7d` at the
witness clock returns the cloned template with `evt_` plus the 14-digit
timestamp substituted, plus the echoed title. -/
theorem write_action_template_substitution_witness :
    (handle_tool envW stW "calendar.create" (Body.obj [("title", Json.str "Standup")])).1 =
      Except.ok [("status", Json.str "created"),
        ("event_id", Json.str "evt_20261012093005"), ("title", Json.str "Standup")] ∧
    (strftime14 envW.now).length = 14 := by
  obtain ⟨T, hT, hres, hlen, _, _, _⟩ := write_action_template_substitution "calendar.create"
    calendarCreateDef envW stW (Body.obj [("title", Json.str "Standup")])
    (by decide) rfl (fun _ => rfl)
  have h2 : resolveTemplatesE (strftime14 envW.now)
      (parseBody (Body.obj [("title", Json.str "Standup")]))
      (calendarCreateDef.default_response.getD [("success", Json.bool true)]) =
      Except.ok [("status", Json.str "created"),
        ("event_id", Json.str "evt_20261012093005")] := by decide
  rw [h2] at hT
  have hTc : T = [("status", Json.str "created"),
      ("event_id", Json.str "evt_20261012093005")] := (Except.ok.inj hT).symm
  refine ⟨?_, hlen⟩
  rw [hres, hTc]
  decide

/-- C3 counterexample: `slack.post_message` called with an input that itself
binds `ts` makes `format(ts=..., **data)` raise `TypeError` (duplicate keyword
argument), which is not caught: the dispatch raises instead of building a
response — the claim's universal "never raise" reading fails at this input. -/
theorem write_action_template_substitution_counterexample :
    ("slack.post_message", slackPostDef) ∈ TOOL_CATALOG ∧
    slackPostDef.behavior = "write_action" ∧
    handle_tool envW stW "slack.post_message"
        (Body.obj [("ts", Json.str "boom"), ("text", Json.str "hi")]) =
      (Except.error (DispatchErr.uncaught PyErr.typeError), stW) := by
  refine ⟨by decide, rfl, ?_⟩
  decide

/-- C8 (the code at the failing input): a dispatch that raises an uncaught
exception (`slack.read_messages` with a numeric channel raises
`AttributeError` at `channel.lstrip`) leaves the success log unchanged — that
much of the claim holds — but the exception also propagates through
`call_next` in the logging middleware before the all-requests append runs, so
the failure is recorded in neither log, contradicting the claim (and the
`/all_requests` endpoint's own "ALL requests including failures"
documentation).  A structured `HTTPException` failure (unknown tool, 404) and
a success are both captured by the all-requests log as documented. -/
theorem uncaught_failure_missing_from_request_log :
    (processToolRequest envW stW "slack.read_messages"
        (Body.obj [("channel", Json.num 5)])).1 =
      Except.error (DispatchErr.uncaught PyErr.attributeError) ∧
    (processToolRequest envW stW "slack.read_messages"
        (Body.obj [("channel", Json.num 5)])).2 = stW ∧
    stW.toolCalls = [] ∧
    stW.allRequests = [] ∧
    (processToolRequest envW stW "zzz.unknown" Body.empty).2.allRequests =
      [{ ts := isoOf envW.now, tool := "zzz.unknown", request_body := Json.null,
         status_code := 404, success := false }] ∧
    (processToolRequest envW stW "email.read"
        (Body.obj [("message_id", Json.str "42")])).2.toolCalls.length = 1 ∧
    (processToolRequest envW stW "email.read"
        (Body.obj [("message_id", Json.str "42")])).2.allRequests.length = 1 := by
  refine ⟨?_, ?_, rfl, rfl, ?_, ?_, ?_⟩ <;> decide
